import Mathlib

/-
Verification development for the orion-brains candle cache / trailing-stop
risk engine (app/db/candles.py, app/jobs/runner.py, app/risk/risk_engine.py).

Modelling conventions:
- timestamps are UTC seconds since the epoch, as natural numbers; pandas
  Timestamp arithmetic, tz localization/conversion and floor() preserve the
  underlying instant, so floor("15min") is integer division by 900;
- Python floats (prices) are modelled as exact rationals;
- database rows become explicit records, dataframes become lists of bars
  ordered oldest to newest, NaN cells become Option.
-/

/-- One OHLC bar (one row of the candles table / one dataframe row).
The field op is the source's open column (open is a Lean keyword). -/
structure Bar where
  ts : Nat
  op : Rat
  high : Rat
  low : Rat
  close : Rat
deriving DecidableEq, Repr, Inhabited

/-- Embeds app/db/candles.py _normalize_ts: for tf "15m" shift forward by
7 minutes 30 seconds (450 s) then floor to the 15-minute (900 s) grid; for
tf "1h" shift forward by 30 minutes (1800 s) then floor to the hour
(3600 s); any other timeframe string is returned unchanged (after the UTC
conversion, which preserves the instant). -/
def normalize_ts (t : Nat) (tf : String) : Nat :=
  if tf = "15m" then ((t + 450) / 900) * 900
  else if tf = "1h" then ((t + 1800) / 3600) * 3600
  else t

/-- Embeds the index-normalization step of app/db/candles.py
upsert_candles: df.index = df.index.map(lambda x: _normalize_ts(x, tf)). -/
def normalize_bars (tf : String) (df : List Bar) : List Bar :=
  df.map (fun b => { b with ts := normalize_ts b.ts tf })

/-- Embeds df[~df.index.duplicated(keep="last")] of upsert_candles: a row
is kept iff no later row carries the same timestamp. -/
def keepLastByTs : List Bar → List Bar
  | [] => []
  | b :: rest =>
      if rest.any (fun c => c.ts == b.ts) then keepLastByTs rest
      else b :: keepLastByTs rest

/-- Embeds the watermark self-heal prelude of app/jobs/runner.py sync_tf
(lines 162-174): if candle_state is empty but the store has candles, adopt
the store's newest timestamp; if the watermark is ahead of the store's
newest timestamp by more than one minute (pd.Timedelta(minutes=1) = 60 s),
reset it to the store's newest timestamp. Returns the repaired watermark. -/
def sync_repair (last_ts newest_db : Option Nat) : Option Nat :=
  match last_ts, newest_db with
  | none, some n => some n
  | some l, some n => if n + 60 < l then some n else some l
  | none, none => none
  | some l, none => some l

/-- Embeds the forward-sync discard step of sync_tf (line 189):
df = df[df.index > pd.Timestamp(last_ts)] — the filter compares the RAW
fetched timestamps against the watermark; normalization to the grid only
happens later, inside upsert_candles. -/
def sync_filter (last_ts : Option Nat) (df : List Bar) : List Bar :=
  match last_ts with
  | none => df
  | some l => df.filter (fun b => decide (l < b.ts))

/-- Claim C1 (counterexample): the spec's first example is wrong on the
code. A raw timestamp of 21:07:40 UTC (76060 s into the day) is past the
7.5-minute midpoint of the 21:00 bucket, so _normalize_ts sends it to
21:15:00 (76500 s), not to 21:00:00 (75600 s). -/
theorem normalize_ts_example_cex :
    normalize_ts 76060 "15m" = 76500 ∧ (76500 : Nat) ≠ 75600 := by
  constructor
  · rfl
  · decide

/-- Claim C1 (amended): normalization snaps to the nearest bucket by
shifting forward by half the bucket width and flooring: the result is on
the grid, timestamps less than half a bucket past a boundary round down,
the rest round up; for 15m, 21:07:40 (76060 s, 460 s past the 21:00
boundary, beyond the 450 s midpoint) normalizes to 21:15:00 (76500 s) and
21:08:10 (76090 s) also normalizes to 21:15:00. -/
theorem normalize_ts_nearest_bucket (t : Nat) :
    normalize_ts t "15m" % 900 = 0
    ∧ (t % 900 < 450 → normalize_ts t "15m" = t - t % 900)
    ∧ (450 ≤ t % 900 → normalize_ts t "15m" = t - t % 900 + 900)
    ∧ normalize_ts t "1h" % 3600 = 0
    ∧ (t % 3600 < 1800 → normalize_ts t "1h" = t - t % 3600)
    ∧ (1800 ≤ t % 3600 → normalize_ts t "1h" = t - t % 3600 + 3600)
    ∧ normalize_ts 76060 "15m" = 76500
    ∧ normalize_ts 76090 "15m" = 76500 := by
  have h15 : normalize_ts t "15m" = ((t + 450) / 900) * 900 := rfl
  have h1h : normalize_ts t "1h" = ((t + 1800) / 3600) * 3600 := rfl
  refine ⟨?_, ?_, ?_, ?_, ?_, ?_, rfl, rfl⟩ <;> simp only [h15, h1h]
  all_goals omega

/-- Claim C1 witness: the amended theorem evaluated at 76060 s
(21:07:40), which is 460 s past the boundary, hence rounds up. -/
theorem normalize_ts_nearest_bucket_witness :
    normalize_ts 76060 "15m" % 900 = 0
    ∧ normalize_ts 76060 "15m" = 76060 - 76060 % 900 + 900 := by
  refine ⟨(normalize_ts_nearest_bucket 76060).1, ?_⟩
  exact (normalize_ts_nearest_bucket 76060).2.2.1 (by decide)

/-- Claim C10: for any timeframe string other than "15m" and "1h",
_normalize_ts is the identity (after UTC conversion, which preserves the
instant), upsert_candles' index normalization leaves the dataframe
unchanged, and the keep-last deduplication therefore operates on the raw
timestamps: it merges exactly the rows whose raw timestamps coincide. -/
theorem normalize_identity_other_tf (tf : String) (t : Nat) (df : List Bar)
    (h15 : tf ≠ "15m") (h1h : tf ≠ "1h") :
    normalize_ts t tf = t
    ∧ normalize_bars tf df = df
    ∧ keepLastByTs (normalize_bars tf df) = keepLastByTs df := by
  have hid : ∀ u : Nat, normalize_ts u tf = u := by
    intro u
    simp [normalize_ts, h15, h1h]
  have hbars : normalize_bars tf df = df := by
    induction df with
    | nil => rfl
    | cons b rest ih =>
        show ({ b with ts := normalize_ts b.ts tf }) :: normalize_bars tf rest
          = b :: rest
        rw [hid b.ts, ih]
  exact ⟨hid t, hbars, by rw [hbars]⟩

/-- Claim C10 witness: a 5-minute timeframe string gets no snapping. -/
theorem normalize_identity_other_tf_witness :
    normalize_ts 76060 "5m" = 76060
    ∧ normalize_bars "5m" [⟨76060, 1, 2, 0, 1⟩] = [⟨76060, 1, 2, 0, 1⟩] := by
  have h := normalize_identity_other_tf "5m" 76060 [⟨76060, 1, 2, 0, 1⟩]
    (by decide) (by decide)
  exact ⟨h.1, h.2.1⟩

/-- Claim C6 (counterexample): with tf = "15m" (bar interval 900 s), a
watermark 300 s ahead of the store's newest bar is NOT ahead by more than
one bar interval, yet sync_tf resets it to the store maximum, because the
code's threshold is one minute, not one bar interval. -/
theorem watermark_reset_cex :
    sync_repair (some 76800) (some 76500) = some 76500
    ∧ 76800 ≤ 76500 + 900
    ∧ some 76800 ≠ some 76500 := by
  refine ⟨?_, by decide, by decide⟩
  rfl

/-- Claim C6 (amended): at the start of a sync, a null watermark over a
non-empty store is set to the store's newest bar timestamp; a watermark
ahead of the store's newest bar timestamp by more than one MINUTE (60 s,
regardless of timeframe) is reset to the store's newest; otherwise the
watermark is kept; an empty store leaves the watermark as it was. -/
theorem watermark_self_heal (l n : Nat) :
    sync_repair none (some n) = some n
    ∧ (n + 60 < l → sync_repair (some l) (some n) = some n)
    ∧ (l ≤ n + 60 → sync_repair (some l) (some n) = some l)
    ∧ sync_repair none none = none
    ∧ sync_repair (some l) none = some l := by
  refine ⟨rfl, ?_, ?_, rfl, rfl⟩
  · intro h
    simp [sync_repair, h]
  · intro h
    simp [sync_repair]
    omega

/-- Claim C6 witness: the amended theorem at a watermark 300 s ahead of
the store's newest bar (reset applies, 76500 + 60 < 76800). -/
theorem watermark_self_heal_witness :
    sync_repair none (some 76500) = some 76500
    ∧ sync_repair (some 76800) (some 76500) = some 76500 := by
  exact ⟨(watermark_self_heal 76800 76500).1,
    (watermark_self_heal 76800 76500).2.1 (by decide)⟩

/-- Claim C7 (counterexample): the discard filter runs on RAW fetched
timestamps, before grid normalization. With the watermark at 76500
(21:15:00, on the 15m grid), a fetched bar with raw timestamp 76560
(21:16:00) survives the filter, yet its normalized timestamp is 76500 —
equal to the watermark, not strictly greater — so forward sync rewrites
the already-processed 21:15 bucket. -/
theorem sync_filter_cex :
    sync_filter (some 76500) [⟨76560, 1, 2, 0, 1⟩] = [⟨76560, 1, 2, 0, 1⟩]
    ∧ normalize_ts 76560 "15m" = 76500
    ∧ ¬ (76500 < normalize_ts 76560 "15m") := by
  refine ⟨rfl, rfl, ?_⟩
  intro h
  simp [normalize_ts] at h

/-- Claim C7 (amended): every bar kept by the forward-sync filter has RAW
timestamp strictly greater than the watermark read at the start of the
pass; and when that watermark lies on the timeframe grid (as it does,
because it is always stored normalized), the kept bar's NORMALIZED
timestamp is at least the watermark — but it can equal it, so strict
inequality and never-rewriting-processed-buckets fail only at the
watermark's own bucket, never below it. -/
theorem sync_filter_raw_strict (l : Nat) (df : List Bar) (b : Bar)
    (hmem : b ∈ sync_filter (some l) df) :
    l < b.ts
    ∧ (900 ∣ l → l ≤ normalize_ts b.ts "15m")
    ∧ (3600 ∣ l → l ≤ normalize_ts b.ts "1h") := by
  have hraw : l < b.ts := by
    have h := List.of_mem_filter hmem
    exact of_decide_eq_true h
  refine ⟨hraw, ?_, ?_⟩
  · intro hgrid
    have h15 : normalize_ts b.ts "15m" = ((b.ts + 450) / 900) * 900 := rfl
    rw [h15]
    omega
  · intro hgrid
    have h1h : normalize_ts b.ts "1h" = ((b.ts + 1800) / 3600) * 3600 := rfl
    rw [h1h]
    omega

/-- Claim C7 witness: the amended theorem at watermark 76500 and a kept
bar with raw timestamp 76560. -/
theorem sync_filter_raw_strict_witness :
    (76500 : Nat) < 76560
    ∧ 76500 ≤ normalize_ts 76560 "15m" := by
  have h := sync_filter_raw_strict 76500 [⟨76560, 1, 2, 0, 1⟩]
    ⟨76560, 1, 2, 0, 1⟩ (by decide)
  exact ⟨h.1, h.2.1 (by decide)⟩

/-- Position side, the source's strings "BUY" and "SELL" (the spec calls
these LONG and SHORT). -/
inductive Side
  | BUY
  | SELL
deriving DecidableEq, Repr, Inhabited

/-- Entry mode, the source's strings "EARLY" and "CONFIRMED". -/
inductive EntryMode
  | EARLY
  | CONFIRMED
deriving DecidableEq, Repr, Inhabited

/-- One row of the positions table as used by app/jobs/runner.py.
Source column names: sl_price is the fixed stop, trail_on the armed flag,
last_15m_ts the idempotency marker; closed_at NOW() is abstracted to the
boolean closed (only its nullness is ever read, via the
closed_at IS NULL filter of get_open_position). -/
structure Position where
  id : String
  pair : String
  side : Side
  mode : EntryMode
  entry_price : Rat
  sl_price : Rat
  trail_price : Option Rat
  trail_on : Bool
  last_15m_ts : Option Nat
  last_swing_price : Option Rat
  last_swing_ts : Option Nat
  closed : Bool
  close_reason : Option String
deriving DecidableEq, Repr, Inhabited

/-- Backtest-matching constant FRACTAL_K of runner.py. -/
def FRACTAL_K : Nat := 2

/-- Backtest-matching constant SWING_ATR_MIN_K = 0.35 of runner.py. -/
def SWING_ATR_MIN_K : Rat := 7/20

/-- Backtest-matching constant STRUCT_PAD_ATR = 0.05 of runner.py. -/
def STRUCT_PAD_ATR : Rat := 1/20

/-- Backtest-matching constant FLOOR_ATR_15_CONFIRMED = 1.20 of runner.py. -/
def FLOOR_ATR_15_CONFIRMED : Rat := 6/5

/-- Backtest-matching constant FLOOR_ATR_15_EARLY = 1.35 of runner.py. -/
def FLOOR_ATR_15_EARLY : Rat := 27/20

/-- Backtest-matching constant ATR_LEN_15 of runner.py. -/
def ATR_LEN_15 : Nat := 14

/-- True range of bar i, per compute_atr of runner.py: high - low for the
first bar (pandas skips the NaN prev_close terms in the row-wise max),
otherwise max(high - low, |high - prev_close|, |low - prev_close|). -/
def trueRange (df : List Bar) (i : Nat) : Rat :=
  let b := df.getD i default
  if i = 0 then b.high - b.low
  else
    let pc := (df.getD (i - 1) default).close
    max (b.high - b.low) (max |b.high - pc| |b.low - pc|)

/-- Embeds compute_atr of runner.py at index i: the simple rolling mean of
the true range over the last n bars; none where pandas rolling(n).mean()
yields NaN (fewer than n bars of history, or index out of range). -/
def compute_atr (df : List Bar) (n i : Nat) : Option Rat :=
  if n ≤ i + 1 ∧ i < df.length ∧ 0 < n then
    some ((((List.range n).map (fun j => trueRange df (i + 1 - n + j))).sum) / n)
  else none

/-- Embeds is_pivot_low of runner.py: false when fewer than k bars of
context exist on either side (including the k = 0 degenerate case, where
pandas' min over an empty slice is NaN and the strict comparison is
false); otherwise the low at i must be strictly below every low in the k
bars before and the k bars after. -/
def is_pivot_low (df : List Bar) (i k : Nat) : Bool :=
  if i < k ∨ df.length ≤ i + k ∨ k = 0 then false
  else
    let v := (df.getD i default).low
    ((List.range k).all fun j => decide (v < (df.getD (i - k + j) default).low))
    && ((List.range k).all fun j => decide (v < (df.getD (i + 1 + j) default).low))

/-- Embeds is_pivot_high of runner.py, the mirror of is_pivot_low on
highs. -/
def is_pivot_high (df : List Bar) (i k : Nat) : Bool :=
  if i < k ∨ df.length ≤ i + k ∨ k = 0 then false
  else
    let v := (df.getD i default).high
    ((List.range k).all fun j => decide ((df.getD (i - k + j) default).high < v))
    && ((List.range k).all fun j => decide ((df.getD (i + 1 + j) default).high < v))

/-- The swing-significance test of compute_trail (runner.py lines
330/336): a candidate pivot replaces the tracked swing iff no swing is
tracked yet, or it differs from the tracked swing by at least
SWING_ATR_MIN_K times the ATR at the pivot bar. A NaN pivot ATR (none)
makes the comparison false, as float comparison with NaN does. -/
def swingAccept (last_swing : Option Rat) (piv : Rat) (atr_piv : Option Rat) :
    Bool :=
  match last_swing with
  | none => true
  | some s =>
      match atr_piv with
      | some a => decide (SWING_ATR_MIN_K * a ≤ |piv - s|)
      | none => false

/-- The effective previous trail of compute_trail (runner.py line 309):
Python float(pos["trail_price"] or sl) falls back to the stop when the
stored trail is NULL — or the float 0.0, since Python or tests
truthiness. -/
def effTrail (pos : Position) : Rat :=
  match pos.trail_price with
  | none => pos.sl_price
  | some t => if t = 0 then pos.sl_price else t

/-- Embeds compute_trail of runner.py (lines 300-354) over the 15m bar
list, returning (trail_on, trail, last_swing_price, last_swing_ts)
exactly as the source does: early return when fewer than
ATR_LEN_15 + FRACTAL_K + 5 bars or the latest ATR is NaN or
non-positive; then the swing/pivot update at index len - 1 - FRACTAL_K
when that index exceeds ATR_LEN_15; then, only if the trail is armed,
the candidate (structure padded by STRUCT_PAD_ATR * ATR vs the
entry-anchored ATR floor, the more conservative of the two) is folded
into the stored trail together with the original stop. -/
def compute_trail (pos : Position) (df15 : List Bar) :
    Bool × Rat × Option Rat × Option Nat :=
  let entry := pos.entry_price
  let sl := pos.sl_price
  let trail_on := pos.trail_on
  let trail := effTrail pos
  if df15.length < ATR_LEN_15 + FRACTAL_K + 5 then
    (trail_on, trail, pos.last_swing_price, pos.last_swing_ts)
  else
    match compute_atr df15 ATR_LEN_15 (df15.length - 1) with
    | none => (trail_on, trail, pos.last_swing_price, pos.last_swing_ts)
    | some atr15 =>
      if atr15 ≤ 0 then (trail_on, trail, pos.last_swing_price, pos.last_swing_ts)
      else
        let floor_mult :=
          if pos.mode = EntryMode.EARLY then FLOOR_ATR_15_EARLY
          else FLOOR_ATR_15_CONFIRMED
        let pivot_i := df15.length - 1 - FRACTAL_K
        let sw :=
          if ATR_LEN_15 < pivot_i then
            let atr_piv := compute_atr df15 ATR_LEN_15 pivot_i
            let pts := (df15.getD pivot_i default).ts
            if pos.side = Side.BUY && is_pivot_low df15 pivot_i FRACTAL_K then
              let piv := (df15.getD pivot_i default).low
              if swingAccept pos.last_swing_price piv atr_piv then
                (some piv, some pts)
              else (pos.last_swing_price, pos.last_swing_ts)
            else if pos.side = Side.SELL && is_pivot_high df15 pivot_i FRACTAL_K then
              let piv := (df15.getD pivot_i default).high
              if swingAccept pos.last_swing_price piv atr_piv then
                (some piv, some pts)
              else (pos.last_swing_price, pos.last_swing_ts)
            else (pos.last_swing_price, pos.last_swing_ts)
          else (pos.last_swing_price, pos.last_swing_ts)
        if !trail_on then (trail_on, trail, sw.1, sw.2)
        else if pos.side = Side.BUY then
          let floor := entry - floor_mult * atr15
          let cand :=
            match sw.1 with
            | none => floor
            | some s => max (s - STRUCT_PAD_ATR * atr15) floor
          (trail_on, max trail (max cand sl), sw.1, sw.2)
        else
          let floor := entry + floor_mult * atr15
          let cand :=
            match sw.1 with
            | none => floor
            | some s => min (s + STRUCT_PAD_ATR * atr15) floor
          (trail_on, min trail (min cand sl), sw.1, sw.2)

/-- The stop/trail hit test of run_once (runner.py lines 418-439) against
the newest closed bar: for BUY, stop hit when low ≤ sl_price, else trail
hit when the trail is armed, non-NULL, and low ≤ trail; SELL is the
mirror on the high. Returns the close reason written to the database. -/
def hitReason (pos : Position) (last : Bar) : Option String :=
  if pos.side = Side.BUY then
    if last.low ≤ pos.sl_price then some "SL"
    else if pos.trail_on && (match pos.trail_price with
        | some t => decide (last.low ≤ t)
        | none => false) then some "TRAIL"
    else none
  else
    if pos.sl_price ≤ last.high then some "SL"
    else if pos.trail_on && (match pos.trail_price with
        | some t => decide (t ≤ last.high)
        | none => false) then some "TRAIL"
    else none

/-- Embeds close_position of runner.py: set closed_at (abstracted to the
closed flag) and close_reason, leaving every other column unchanged. -/
def closePos (pos : Position) (reason : String) : Position :=
  { pos with closed := true, close_reason := some reason }

/-- The favorable excursion ratio of run_once (runner.py lines 441-445):
distance moved in the position's favor, taken from the closed bar's
extreme, divided by the initial risk distance; zero when the risk
distance is zero (Python: risk > 0 guard). -/
def favOf (side : Side) (entry sl hi lo : Rat) : Rat :=
  let risk := |entry - sl|
  if 0 < risk then
    if side = Side.BUY then (hi - entry) / risk else (entry - lo) / risk
  else 0

/-- The trail activation threshold of run_once (runner.py line 447):
0.9 for EARLY entries, 0.7 for CONFIRMED entries. -/
def actOf (mode : EntryMode) : Rat :=
  if mode = EntryMode.EARLY then 9/10 else 7/10

/-- Outcome appended to the per-pair actions list by the manage-position
section of run_once. -/
inductive PairAction
  | noData
  | skip
  | closed (reason : String)
  | managed
deriving DecidableEq, Repr

/-- Embeds the manage-open-position section of run_once (runner.py lines
397-461) for one pair: read the newest 15m bar; skip when the
idempotency marker is not strictly older than it; otherwise run the
stop/trail hit test and on a hit close the position and stop; otherwise
arm the trail once the favorable excursion ratio reaches the mode's
threshold (one-way: an armed trail stays armed), recompute the trail via
compute_trail, and persist trail, armed flag, swing state and the new
idempotency marker. -/
def run_once_manage (pos : Position) (df15 : List Bar) : Position × PairAction :=
  match df15.getLast? with
  | none => (pos, PairAction.noData)
  | some last =>
    if (match pos.last_15m_ts with
        | some m => decide (last.ts ≤ m)
        | none => false) then (pos, PairAction.skip)
    else
      match hitReason pos last with
      | some r => (closePos pos r, PairAction.closed r)
      | none =>
        let fav := favOf pos.side pos.entry_price pos.sl_price last.high last.low
        let armed := pos.trail_on || (!pos.trail_on && decide (actOf pos.mode ≤ fav))
        let r := compute_trail { pos with trail_on := armed } df15
        ({ pos with
            trail_price := some r.2.1,
            trail_on := r.1,
            last_15m_ts := some last.ts,
            last_swing_price := r.2.2.1,
            last_swing_ts := r.2.2.2 }, PairAction.managed)

/-- One risk-engine cycle for a pair as run_once drives it: a closed
position is not returned by get_open_position (closed_at IS NULL), so
nothing runs; an open position goes through the manage section. -/
def manage_cycle (pos : Position) (df15 : List Bar) : Position :=
  if pos.closed then pos else (run_once_manage pos df15).1

/-- Position row as read by the standalone polling engine
app/risk/risk_engine.py RiskEngine.check_position: fields id, pair, side,
sl, trail, trail_on. -/
structure RPos where
  id : String
  pair : String
  side : Side
  sl : Rat
  trail : Option Rat
  trail_on : Bool
deriving DecidableEq, Repr, Inhabited

/-- Quote dict consumed by RiskEngine.check_position: bid/ask/high/low
fall back to mid when absent (Python dict get with default). -/
structure Quote where
  mid : Rat
  bid : Option Rat
  ask : Option Rat
  high : Option Rat
  low : Option Rat
deriving DecidableEq, Repr, Inhabited

/-- Embeds RiskEngine.check_position of app/risk/risk_engine.py: the
active stop level is the stop, tightened by the trail when armed
(max for BUY, min for SELL; trail defaults to the stop when absent); a
hit closes the position with reason "STOP_HIT" at that level, modelled
as the returned (reason, price) pair handed to
positions_repo.close_position; no hit returns none. -/
def check_position (pos : RPos) (q : Quote) : Option (String × Rat) :=
  let sl := pos.sl
  let trail := pos.trail.getD sl
  let bid := q.bid.getD q.mid
  let ask := q.ask.getD q.mid
  let lo := q.low.getD q.mid
  let hi := q.high.getD q.mid
  if pos.side = Side.BUY then
    let stop_level := if pos.trail_on then max sl trail else sl
    if lo ≤ stop_level ∨ bid ≤ stop_level then some ("STOP_HIT", stop_level)
    else none
  else
    let stop_level := if pos.trail_on then min sl trail else sl
    if stop_level ≤ hi ∨ stop_level ≤ ask then some ("STOP_HIT", stop_level)
    else none

/-- Outcome of one pair's processing inside the run_once loop, abstracting
the network and database effects: the pair's work either completes (ok,
producing its actions list), raises a Polygon HTTP 429 (detected by
_is_http_429), or raises any other exception. -/
inductive SyncOutcome
  | ok
  | rate429
  | exc (msg : String)
deriving DecidableEq, Repr, Inhabited

/-- One pair of the universe together with the outcome its processing
would produce this run. -/
structure PairRun where
  name : String
  sync : SyncOutcome
  actions : List String
deriving DecidableEq, Repr, Inhabited

/-- The value run_once returns to its caller: either the bare
rate-limited marker dict (which discards all per-pair slots built so
far), or the normal out dict with one actions slot per processed pair. -/
inductive RunResult
  | rateLimited
  | normal (pairs : List (String × List String))
deriving DecidableEq, Repr

/-- Embeds the control flow of the run_once pair loop (runner.py lines
361-490): pairs are processed in order; a 429 makes run_once return the
rate-limited marker immediately; any other exception escapes the loop —
the only try/except in run_once re-raises it (line 387) — modelled as
Except.error, terminating the run; otherwise the pair's slot is appended
and the loop continues. -/
def run_once_loop :
    List PairRun → List (String × List String) → Except String RunResult
  | [], acc => Except.ok (RunResult.normal acc.reverse)
  | p :: rest, acc =>
      match p.sync with
      | SyncOutcome.rate429 => Except.ok RunResult.rateLimited
      | SyncOutcome.exc m => Except.error m
      | SyncOutcome.ok => run_once_loop rest ((p.name, p.actions) :: acc)

/-- run_once over a universe, starting from the empty out dict. -/
def run_once (pairs : List PairRun) : Except String RunResult :=
  run_once_loop pairs []

/-- compute_trail never changes the armed flag: every return path of the
source passes trail_on through unchanged. -/
theorem compute_trail_fst (pos : Position) (df : List Bar) :
    (compute_trail pos df).1 = pos.trail_on := by
  simp only [compute_trail]
  split
  · rfl
  · split
    · rfl
    · split
      · rfl
      · split
        · rfl
        · split <;> rfl

/-- Case analysis on the trail value compute_trail returns when the trail
is armed: either an early return leaves it at the effective previous
trail, or the update folds some candidate into it together with the
original stop (max for BUY, min for SELL). -/
theorem compute_trail_snd_cases (pos : Position) (df : List Bar)
    (harm : pos.trail_on = true) :
    (pos.side = Side.BUY →
        (compute_trail pos df).2.1 = effTrail pos
        ∨ ∃ cand, (compute_trail pos df).2.1
            = max (effTrail pos) (max cand pos.sl_price))
    ∧ (pos.side = Side.SELL →
        (compute_trail pos df).2.1 = effTrail pos
        ∨ ∃ cand, (compute_trail pos df).2.1
            = min (effTrail pos) (min cand pos.sl_price)) := by
  simp only [compute_trail, harm, Bool.not_true, Bool.false_eq_true, if_false]
  split
  · exact ⟨fun _ => Or.inl rfl, fun _ => Or.inl rfl⟩
  · split
    · exact ⟨fun _ => Or.inl rfl, fun _ => Or.inl rfl⟩
    · split
      · exact ⟨fun _ => Or.inl rfl, fun _ => Or.inl rfl⟩
      · split
        · constructor
          · intro _
            exact Or.inr ⟨_, rfl⟩
          · intro hsell
            simp_all
        · constructor
          · intro hbuy
            simp_all
          · intro _
            exact Or.inr ⟨_, rfl⟩

/-- Claim C3: with the trail armed, one recomputation can only tighten
the stored trail — for BUY (LONG) the result is at least the effective
previous trail, stays at or above the original stop whenever the
previous trail did, and is either the unchanged previous trail (the
insufficient-history / undefined-ATR no-ops) or the maximum of previous
trail, candidate and stop; SELL (SHORT) is the mirror with min. Chained
over successive recomputations this makes the stored sequence
non-decreasing (LONG) / non-increasing (SHORT) and never looser than the
stop. -/
theorem trail_monotone_tightening (pos : Position) (df : List Bar)
    (harm : pos.trail_on = true) :
    (pos.side = Side.BUY →
        effTrail pos ≤ (compute_trail pos df).2.1
        ∧ (pos.sl_price ≤ effTrail pos → pos.sl_price ≤ (compute_trail pos df).2.1)
        ∧ ((compute_trail pos df).2.1 = effTrail pos
           ∨ ∃ cand, (compute_trail pos df).2.1
               = max (effTrail pos) (max cand pos.sl_price)))
    ∧ (pos.side = Side.SELL →
        (compute_trail pos df).2.1 ≤ effTrail pos
        ∧ (effTrail pos ≤ pos.sl_price → (compute_trail pos df).2.1 ≤ pos.sl_price)
        ∧ ((compute_trail pos df).2.1 = effTrail pos
           ∨ ∃ cand, (compute_trail pos df).2.1
               = min (effTrail pos) (min cand pos.sl_price))) := by
  have h := compute_trail_snd_cases pos df harm
  constructor
  · intro hbuy
    rcases h.1 hbuy with heq | ⟨cand, heq⟩
    · exact ⟨le_of_eq heq.symm, fun hs => heq ▸ hs, Or.inl heq⟩
    · refine ⟨heq ▸ le_max_left _ _, fun _ => ?_, Or.inr ⟨cand, heq⟩⟩
      rw [heq]
      exact le_trans (le_max_right cand pos.sl_price) (le_max_right _ _)
  · intro hsell
    rcases h.2 hsell with heq | ⟨cand, heq⟩
    · exact ⟨le_of_eq heq, fun hs => heq ▸ hs, Or.inl heq⟩
    · refine ⟨heq ▸ min_le_left _ _, fun _ => ?_, Or.inr ⟨cand, heq⟩⟩
      rw [heq]
      exact le_trans (min_le_right _ _) (min_le_right cand pos.sl_price)

/-- Concrete armed LONG position for exercising the trail theorems:
stop at 1, stored trail at 2. -/
def w3Pos : Position :=
  ⟨"TR-EURUSD-1-OR", "EURUSD", Side.BUY, EntryMode.EARLY, 3/2, 1,
    some 2, true, none, none, none, false, none⟩

/-- Claim C3 witness: one recomputation on the armed LONG position w3Pos
(previous trail 2, stop 1) keeps the trail at or above both. -/
theorem trail_monotone_tightening_witness :
    effTrail w3Pos ≤ (compute_trail w3Pos []).2.1
    ∧ w3Pos.sl_price ≤ (compute_trail w3Pos []).2.1 := by
  have h := (trail_monotone_tightening w3Pos [] rfl).1 rfl
  exact ⟨h.1, h.2.1 (by decide)⟩

/-- Claim C2: evaluating an open position against the newest closed bar
(idempotency guard passed), a BUY (LONG) position closes with reason
"SL" (the spec's STOP) as soon as the bar's low reaches the stop,
regardless of the trail — the stop check precedes the trail check — and
only otherwise closes with reason "TRAIL" when the trail is armed and
the bar's low reaches the stored trail; SELL (SHORT) is the mirror on
the bar's high. On a hit the position is exactly the closed copy of the
input — no arming, trail recomputation or marker update happens for this
pair this cycle. -/
theorem stop_trail_hit_check (pos : Position) (df : List Bar) (last : Bar)
    (t : Rat) (hlast : df.getLast? = some last)
    (hguard : ∀ m, pos.last_15m_ts = some m → m < last.ts) :
    (pos.side = Side.BUY → last.low ≤ pos.sl_price →
        run_once_manage pos df = (closePos pos "SL", PairAction.closed "SL"))
    ∧ (pos.side = Side.BUY → pos.sl_price < last.low → pos.trail_on = true →
        pos.trail_price = some t → last.low ≤ t →
        run_once_manage pos df = (closePos pos "TRAIL", PairAction.closed "TRAIL"))
    ∧ (pos.side = Side.SELL → pos.sl_price ≤ last.high →
        run_once_manage pos df = (closePos pos "SL", PairAction.closed "SL"))
    ∧ (pos.side = Side.SELL → last.high < pos.sl_price → pos.trail_on = true →
        pos.trail_price = some t → t ≤ last.high →
        run_once_manage pos df = (closePos pos "TRAIL", PairAction.closed "TRAIL")) := by
  have hg : (match pos.last_15m_ts with
      | some m => decide (last.ts ≤ m)
      | none => false) = false := by
    cases hp : pos.last_15m_ts with
    | none => rfl
    | some m =>
        simp only [decide_eq_false_iff_not, not_le]
        exact hguard m hp
  refine ⟨?_, ?_, ?_, ?_⟩
  · intro hs hlow
    simp [run_once_manage, hlast, hg, hitReason, hs, hlow]
  · intro hs hlow htrail hsome hle
    simp [run_once_manage, hlast, hg, hitReason, hs, not_le.mpr hlow, htrail,
      hsome, hle]
  · intro hs hhigh
    simp [run_once_manage, hlast, hg, hitReason, hs, hhigh]
  · intro hs hhigh htrail hsome hle
    simp [run_once_manage, hlast, hg, hitReason, hs, not_le.mpr hhigh, htrail,
      hsome, hle]

/-- The spec's end-to-end scenario bar: the newest closed bar dips to
1.0949, one pip through the 1.0950 stop. -/
def w2Bar : Bar := ⟨900, 11/10, 111/100, 10949/10000, 11/10⟩

/-- The spec's end-to-end scenario position: LONG, entry 1.1000, stop
1.0950, trail already armed at 1.1000. -/
def w2Pos : Position :=
  ⟨"TR-EURUSD-1-OR", "EURUSD", Side.BUY, EntryMode.EARLY, 11/10, 219/200,
    some (11/10), true, none, none, none, false, none⟩

/-- Claim C2 witness: on the bar with low 1.0949 ≤ stop 1.0950 the armed
LONG position closes with reason "SL" — the stop check wins although the
bar's low is also at or below the armed trail of 1.1000. -/
theorem stop_trail_hit_check_witness :
    run_once_manage w2Pos [w2Bar]
      = (closePos w2Pos "SL", PairAction.closed "SL")
    ∧ w2Bar.low ≤ (11 : Rat)/10 := by
  refine ⟨?_, by norm_num [w2Bar]⟩
  have h := stop_trail_hit_check w2Pos [w2Bar] w2Bar (11/10) rfl ?_
  · exact h.1 rfl (by norm_num [w2Bar, w2Pos])
  · intro m hm
    simp [w2Pos] at hm

/-- Claim C4: risk evaluation is idempotent per closed bar. If the newest
bar's timestamp is not strictly newer than the position's
last-processed-bar marker the evaluation is skipped outright (before the
hit check), and running the whole manage cycle twice against the same
newest bar equals running it once: the first run either closes the
position (a closed position is no longer returned by
get_open_position) or stamps the marker with the bar's timestamp, so the
second run is a no-op on the position's state. -/
theorem bar_idempotency_guard (pos : Position) (df : List Bar) :
    manage_cycle (manage_cycle pos df) df = manage_cycle pos df
    ∧ (∀ last m, df.getLast? = some last → pos.last_15m_ts = some m →
        last.ts ≤ m → run_once_manage pos df = (pos, PairAction.skip)) := by
  constructor
  · by_cases hc : pos.closed = true
    · simp [manage_cycle, hc]
    · have hc' : pos.closed = false := eq_false_of_ne_true hc
      cases hL : df.getLast? with
      | none => simp [manage_cycle, hc', run_once_manage, hL]
      | some last =>
          by_cases hskip : (match pos.last_15m_ts with
              | some m => decide (last.ts ≤ m)
              | none => false) = true
          · simp [manage_cycle, hc', run_once_manage, hL, hskip]
          · have hg : (match pos.last_15m_ts with
                | some m => decide (last.ts ≤ m)
                | none => false) = false := eq_false_of_ne_true hskip
            cases hR : hitReason pos last with
            | some r =>
                simp [manage_cycle, hc', run_once_manage, hL, hg, hR, closePos]
            | none =>
                simp [manage_cycle, hc', run_once_manage, hL, hg, hR]
  · intro last m hlast hm hle
    simp [run_once_manage, hlast, hm, hle]

/-- Open position whose marker already records bar timestamp 1000. -/
def w4Pos : Position :=
  ⟨"TR-EURUSD-2-OR", "EURUSD", Side.BUY, EntryMode.EARLY, 3/2, 1,
    none, false, some 1000, none, none, false, none⟩

/-- Newest bar, timestamp 900, not strictly newer than w4Pos's marker. -/
def w4Bar : Bar := ⟨900, 1, 2, 1, 1⟩

/-- Claim C4 witness: the idempotency theorem at a concrete position and
bar — the double cycle collapses, and a marker at 1000 ≥ bar ts 900
makes the evaluation skip. -/
theorem bar_idempotency_guard_witness :
    manage_cycle (manage_cycle w4Pos [w4Bar]) [w4Bar] = manage_cycle w4Pos [w4Bar]
    ∧ run_once_manage w4Pos [w4Bar] = (w4Pos, PairAction.skip) :=
  ⟨(bar_idempotency_guard w4Pos [w4Bar]).1,
    (bar_idempotency_guard w4Pos [w4Bar]).2 w4Bar 1000 rfl rfl (by decide)⟩

/-- LONG EARLY position for the arming scenario: entry 1.5, stop 1.0,
so the favorable excursion of the test bar is ratio 0.8. -/
def cexPosE : Position :=
  ⟨"TR-EURUSD-3-OR", "EURUSD", Side.BUY, EntryMode.EARLY, 3/2, 1,
    none, false, none, none, none, false, none⟩

/-- The same position with entry_mode CONFIRMED. -/
def cexPosC : Position :=
  ⟨"TR-EURUSD-3-OR", "EURUSD", Side.BUY, EntryMode.CONFIRMED, 3/2, 1,
    none, false, none, none, none, false, none⟩

/-- Closed bar whose high 1.9 puts the favorable excursion at 0.4 of the
0.5 risk... high = entry + 0.4 risk: favorable ratio 0.8; low stays
above the stop so no hit fires. -/
def cexBar : Bar := ⟨900, 3/2, 19/10, 7/5, 3/2⟩

/-- The EARLY activation threshold is the source's literal 0.9. -/
theorem actOf_EARLY : actOf EntryMode.EARLY = 9/10 := rfl

/-- The CONFIRMED activation threshold is the source's literal 0.7. -/
theorem actOf_CONFIRMED : actOf EntryMode.CONFIRMED = 7/10 := rfl

/-- Claim C5 (counterexample): the activation threshold is NOT lower for
EARLY entries. At favorable excursion ratio 0.8 the CONFIRMED position
arms (threshold 0.7) while the otherwise-identical EARLY position does
not (threshold 0.9): EARLY's bar is the higher one. -/
theorem trail_arming_threshold_cex :
    (run_once_manage cexPosE [cexBar]).1.trail_on = false
    ∧ (run_once_manage cexPosC [cexBar]).1.trail_on = true
    ∧ favOf Side.BUY (3/2) 1 (19/10) (7/5) = 4/5
    ∧ ¬ (actOf EntryMode.EARLY < actOf EntryMode.CONFIRMED) := by
  have habs : |(1 : Rat)/2| = 1/2 := abs_of_pos (by norm_num)
  refine ⟨?_, ?_, ?_, ?_⟩
  · norm_num [run_once_manage, cexPosE, cexBar, hitReason, favOf,
      actOf_EARLY, compute_trail, effTrail, ATR_LEN_15, FRACTAL_K, habs]
  · norm_num [run_once_manage, cexPosC, cexBar, hitReason, favOf,
      actOf_CONFIRMED, compute_trail, effTrail, ATR_LEN_15, FRACTAL_K, habs]
  · norm_num [favOf, habs]
  · rw [actOf_EARLY, actOf_CONFIRMED]
    norm_num

/-- Claim C5 (amended): the favorable excursion ratio is the move in the
position's favor taken from the closed bar's extreme divided by the
initial risk distance, and zero when the risk distance is zero; when no
hit fired, the position leaves the evaluation armed iff it was already
armed or the ratio reached the entry_mode threshold (so arming is
one-time and irreversible); the threshold is 0.9 for EARLY and 0.7 for
CONFIRMED — i.e. HIGHER for EARLY entries than for CONFIRMED ones, the
opposite of the spec's ordering. -/
theorem trail_arming_spec (pos : Position) (df : List Bar) (last : Bar)
    (hlast : df.getLast? = some last)
    (hguard : ∀ m, pos.last_15m_ts = some m → m < last.ts)
    (hhit : hitReason pos last = none) :
    (∀ (sd : Side) (e s hi lo : Rat), |e - s| = 0 → favOf sd e s hi lo = 0)
    ∧ actOf EntryMode.EARLY = 9/10
    ∧ actOf EntryMode.CONFIRMED = 7/10
    ∧ actOf EntryMode.CONFIRMED < actOf EntryMode.EARLY
    ∧ (run_once_manage pos df).1.trail_on
        = (pos.trail_on
            || decide (actOf pos.mode
                ≤ favOf pos.side pos.entry_price pos.sl_price last.high last.low))
    ∧ (pos.trail_on = true → (run_once_manage pos df).1.trail_on = true) := by
  have hg : (match pos.last_15m_ts with
      | some m => decide (last.ts ≤ m)
      | none => false) = false := by
    cases hp : pos.last_15m_ts with
    | none => rfl
    | some m =>
        simp only [decide_eq_false_iff_not, not_le]
        exact hguard m hp
  have key : (run_once_manage pos df).1.trail_on
      = (pos.trail_on
          || (!pos.trail_on && decide (actOf pos.mode
              ≤ favOf pos.side pos.entry_price pos.sl_price last.high last.low))) := by
    simp [run_once_manage, hlast, hg, hhit, compute_trail_fst]
  refine ⟨?_, rfl, rfl, by norm_num [actOf_EARLY, actOf_CONFIRMED], ?_, ?_⟩
  · intro sd e s hi lo h
    simp [favOf, h]
  · rw [key]
    cases pos.trail_on <;> simp
  · intro h
    rw [key, h]
    simp

/-- Claim C5 witness: the amended theorem at the CONFIRMED position and
the ratio-0.8 bar (marker empty, no hit on that bar), giving the
threshold ordering and the arming equation at a concrete input. -/
theorem trail_arming_spec_witness :
    actOf EntryMode.CONFIRMED < actOf EntryMode.EARLY
    ∧ (run_once_manage cexPosC [cexBar]).1.trail_on
        = (cexPosC.trail_on
            || decide (actOf cexPosC.mode
                ≤ favOf cexPosC.side cexPosC.entry_price cexPosC.sl_price
                    cexBar.high cexBar.low)) := by
  have h := trail_arming_spec cexPosC [cexBar] cexBar rfl
    (by intro m hm; simp [cexPosC] at hm)
    (by norm_num [hitReason, cexPosC, cexBar])
  exact ⟨h.2.2.2.1, h.2.2.2.2.1⟩

/-- The hit test of run_once can only produce no reason, "SL", or
"TRAIL". -/
theorem hitReason_cases (pos : Position) (last : Bar) :
    hitReason pos last = none
    ∨ hitReason pos last = some "SL"
    ∨ hitReason pos last = some "TRAIL" := by
  simp only [hitReason]
  split
  · split
    · exact Or.inr (Or.inl rfl)
    · split
      · exact Or.inr (Or.inr rfl)
      · exact Or.inl rfl
  · split
    · exact Or.inr (Or.inl rfl)
    · split
      · exact Or.inr (Or.inr rfl)
      · exact Or.inl rfl

/-- Claim C9 (amended): the bar-driven engine of run_once closes only
with close_reason "SL" (the spec's STOP) or "TRAIL", and leaves
close_reason null exactly while the position stays open; but the
repository has a third close path — the standalone polling
RiskEngine.check_position — and every close it emits carries the distinct
reason "STOP_HIT", so system-wide close reasons are exactly
SL, TRAIL and STOP_HIT, not two values. -/
theorem close_reason_values (pos : Position) (df : List Bar) (rpos : RPos)
    (q : Quote) (r : String) (p : Rat) :
    (pos.closed = false → pos.close_reason = none →
        ((run_once_manage pos df).1.closed = false
            ∧ (run_once_manage pos df).1.close_reason = none)
        ∨ ((run_once_manage pos df).1.closed = true
            ∧ ((run_once_manage pos df).1.close_reason = some "SL"
                ∨ (run_once_manage pos df).1.close_reason = some "TRAIL")))
    ∧ (check_position rpos q = some (r, p) → r = "STOP_HIT") := by
  constructor
  · intro hc hcr
    cases hL : df.getLast? with
    | none =>
        left
        simp [run_once_manage, hL, hc, hcr]
    | some last =>
        by_cases hskip : (match pos.last_15m_ts with
            | some m => decide (last.ts ≤ m)
            | none => false) = true
        · left
          simp [run_once_manage, hL, hskip, hc, hcr]
        · have hg := eq_false_of_ne_true hskip
          cases hR : hitReason pos last with
          | none =>
              left
              simp [run_once_manage, hL, hg, hR, hc, hcr]
          | some rr =>
              right
              have hcases := hitReason_cases pos last
              rw [hR] at hcases
              refine ⟨by simp [run_once_manage, hL, hg, hR, closePos], ?_⟩
              rcases hcases with h | h | h
              · exact absurd h (by simp)
              · left
                simp only [Option.some.injEq] at h
                simp [run_once_manage, hL, hg, hR, closePos, h]
              · right
                simp only [Option.some.injEq] at h
                simp [run_once_manage, hL, hg, hR, closePos, h]
  · intro h
    simp only [check_position] at h
    split at h <;> split at h <;> split at h
    all_goals first
      | · injection h with h'
          injection h' with hr hp
          exact hr.symm
      | exact Option.noConfusion h

/-- Position row for the polling-engine counterexample: LONG, stop 1,
trail not armed. -/
def cexRPos : RPos := ⟨"RL-1", "EURUSD", Side.BUY, 1, none, false⟩

/-- Quote whose mid 0.5 sits through the stop. -/
def cexQuote : Quote := ⟨1/2, none, none, none, none⟩

/-- Claim C9 (counterexample): the polling RiskEngine closes the
position with reason "STOP_HIT", which is neither of the two values the
bar-driven engine writes — so not every close path writes one of
SL (STOP) and TRAIL. -/
theorem close_reason_cex :
    check_position cexRPos cexQuote = some ("STOP_HIT", 1)
    ∧ "STOP_HIT" ≠ "SL"
    ∧ "STOP_HIT" ≠ "TRAIL" := by
  refine ⟨?_, by decide, by decide⟩
  norm_num [check_position, cexRPos, cexQuote]

/-- Claim C9 witness: the amended theorem at the open position w3Pos
(no close: reason stays null) and at the concrete polling-engine hit. -/
theorem close_reason_values_witness :
    (((run_once_manage w3Pos []).1.closed = false
        ∧ (run_once_manage w3Pos []).1.close_reason = none)
      ∨ ((run_once_manage w3Pos []).1.closed = true
        ∧ ((run_once_manage w3Pos []).1.close_reason = some "SL"
            ∨ (run_once_manage w3Pos []).1.close_reason = some "TRAIL")))
    ∧ "STOP_HIT" = "STOP_HIT" := by
  refine ⟨(close_reason_values w3Pos [] cexRPos cexQuote "STOP_HIT" 1).1 rfl rfl, ?_⟩
  exact (close_reason_values w3Pos [] cexRPos cexQuote "STOP_HIT" 1).2
    (by norm_num [check_position, cexRPos, cexQuote])

/-- When every pair in the list processes cleanly, the loop appends one
slot per pair to the accumulator. -/
theorem run_once_loop_all_ok (pairs : List PairRun)
    (h : ∀ q ∈ pairs, q.sync = SyncOutcome.ok)
    (acc : List (String × List String)) :
    run_once_loop pairs acc
      = Except.ok (RunResult.normal
          (acc.reverse ++ pairs.map fun q => (q.name, q.actions))) := by
  induction pairs generalizing acc with
  | nil => simp [run_once_loop]
  | cons p rest ih =>
      have hp : p.sync = SyncOutcome.ok := h p (List.mem_cons_self p rest)
      have hr : ∀ q ∈ rest, q.sync = SyncOutcome.ok :=
        fun q hq => h q (List.mem_cons_of_mem p hq)
      rw [run_once_loop, hp, ih hr, List.reverse_cons, List.append_assoc,
        List.map_cons, List.singleton_append]

/-- A prefix of cleanly processing pairs only grows the accumulator. -/
theorem run_once_loop_prefix (pre rest : List PairRun)
    (h : ∀ q ∈ pre, q.sync = SyncOutcome.ok)
    (acc : List (String × List String)) :
    run_once_loop (pre ++ rest) acc
      = run_once_loop rest
          ((pre.map fun q => (q.name, q.actions)).reverse ++ acc) := by
  induction pre generalizing acc with
  | nil => simp
  | cons p pr ih =>
      have hp : p.sync = SyncOutcome.ok := h p (List.mem_cons_self p pr)
      have hr : ∀ q ∈ pr, q.sync = SyncOutcome.ok :=
        fun q hq => h q (List.mem_cons_of_mem p hq)
      rw [List.cons_append, run_once_loop, hp, ih hr, List.map_cons,
        List.reverse_cons, List.append_assoc, List.singleton_append]

/-- Claim C8 (amended): only the upstream rate-limit (HTTP 429) is given
special treatment — it aborts the whole run, returning the bare
rate-limited marker and discarding every per-pair slot already built;
any other per-instrument failure escapes run_once as an exception,
terminating the run for the remaining instruments with no per-instrument
outcome reported; a per-instrument enumeration of outcomes is produced
only when every instrument processes without raising. -/
theorem run_once_failure_paths (pairs pre post : List PairRun) (p : PairRun) :
    ((∀ q ∈ pairs, q.sync = SyncOutcome.ok) →
        run_once pairs
          = Except.ok (RunResult.normal
              (pairs.map fun q => (q.name, q.actions))))
    ∧ (pairs = pre ++ p :: post → (∀ q ∈ pre, q.sync = SyncOutcome.ok) →
        (p.sync = SyncOutcome.rate429 →
            run_once pairs = Except.ok RunResult.rateLimited)
        ∧ (∀ m, p.sync = SyncOutcome.exc m →
            run_once pairs = Except.error m)) := by
  constructor
  · intro h
    rw [run_once, run_once_loop_all_ok pairs h []]
    simp
  · intro hsplit hpre
    subst hsplit
    rw [run_once, run_once_loop_prefix pre (p :: post) hpre]
    constructor
    · intro h429
      rw [run_once_loop, h429]
    · intro m hexc
      rw [run_once_loop, hexc]

/-- The two-pair universe where the first pair's processing raises a
generic (non-429) exception. -/
def cexRunPairs : List PairRun :=
  [⟨"EURUSD", SyncOutcome.exc "db down", []⟩,
    ⟨"GBPUSD", SyncOutcome.ok, ["no_signal"]⟩]

/-- Claim C8 (counterexample): a non-rate-limit failure on the first
instrument is NOT caught into that instrument's result slot — the
exception terminates run_once before the second instrument runs, and the
run's value is the propagated error, not a per-instrument enumeration. -/
theorem run_once_error_cex :
    run_once cexRunPairs = Except.error "db down"
    ∧ (Except.error "db down" : Except String RunResult)
        ≠ Except.ok (RunResult.normal
            [("EURUSD", []), ("GBPUSD", ["no_signal"])]) := by
  refine ⟨rfl, ?_⟩
  intro h
  exact Except.noConfusion h

/-- All-clean two-pair universe. -/
def okRunPairs : List PairRun :=
  [⟨"EURUSD", SyncOutcome.ok, ["managed_position"]⟩,
    ⟨"GBPUSD", SyncOutcome.ok, ["no_signal"]⟩]

/-- Claim C8 witness: the amended theorem at concrete universes — the
clean run enumerates one slot per pair, and a concrete 429 in front of a
remaining pair yields the bare rate-limited marker. -/
theorem run_once_failure_paths_witness :
    run_once okRunPairs
      = Except.ok (RunResult.normal
          [("EURUSD", ["managed_position"]), ("GBPUSD", ["no_signal"])])
    ∧ run_once [⟨"EURUSD", SyncOutcome.rate429, []⟩,
        ⟨"GBPUSD", SyncOutcome.ok, ["no_signal"]⟩]
      = Except.ok RunResult.rateLimited := by
  constructor
  · exact (run_once_failure_paths okRunPairs [] [] default).1 (by decide)
  · exact ((run_once_failure_paths
        [⟨"EURUSD", SyncOutcome.rate429, []⟩, ⟨"GBPUSD", SyncOutcome.ok, ["no_signal"]⟩]
        [] [⟨"GBPUSD", SyncOutcome.ok, ["no_signal"]⟩]
        ⟨"EURUSD", SyncOutcome.rate429, []⟩).2 rfl (by simp)).1 rfl
